import Mathlib

/-!
A shallow embedding of `tika/server.go` (package tika of go-tika).

The source file has five operations:
  - `NewServer(jar, port)`        : construct a `Server` handle;
  - `(*Server).URL()`             : accessor for the derived base URL;
  - `(*Server).Start(ctx)`        : launch the java process and wait for readiness;
  - `(Server).waitForStart(ctx)`  : poll the version endpoint until ready or ctx done;
  - `validateFileMD5(path, wantH)`: compute the MD5 of a file and compare;
  - `DownloadServer(ctx, version, path)`: checksum-verified artifact download.

Effectful collaborators (the OS filesystem, the MD5 accumulator of crypto/md5,
the HTTP transport of ctxhttp.Get, process launch and output capture of os/exec,
and the readiness probe of the external Client) live outside this file: they are
modelled as explicit oracle parameters, and each Go function becomes a pure Lean
function of those oracles, translated branch for branch from the source.
-/

/-- State of one path in the modelled filesystem. `absent` means `os.Stat` /
`os.Open` fail with not-exist; `unreadable` means the file exists (`os.Stat`
succeeds) but opening or reading it fails; `content d` means reading the file
yields exactly the byte list `d`. -/
inductive FileEntry where
  | absent
  | unreadable
  | content (data : List Nat)
  deriving DecidableEq, Repr

/-- Pointwise update of a modelled filesystem at one path, the effect of a
write, truncate or remove on that path. -/
def setFile (fs : String → FileEntry) (path : String) (e : FileEntry) :
    String → FileEntry :=
  fun q => if q = path then e else fs q

/-- Embedding of `validateFileMD5(path, wantH)` from server.go lines 111-124.
The parameter `hash` is the oracle for the hex-encoded MD5 digest computed by
`crypto/md5` plus `fmt.Sprintf("%x", ...)`; the Go function returns
`(false, "")` when `os.Open` or the `io.Copy` into the accumulator fails, and
otherwise returns `(md5 == wantH, md5)`. -/
def validateFileMD5 (hash : List Nat → String) (fs : String → FileEntry)
    (path wantH : String) : Bool × String :=
  match fs path with
  | .absent => (false, "")
  | .unreadable => (false, "")
  | .content d =>
      let md5 := hash d
      (md5 == wantH, md5)

/-- Embedding of the `Version` string type of server.go line 127. -/
abbrev Version := String

/-- Supported versions, server.go lines 130-134. -/
def Version114 : Version := "1.14"

/-- Supported version 1.15 of server.go line 132. -/
def Version115 : Version := "1.15"

/-- Supported version 1.16 of server.go line 133. -/
def Version116 : Version := "1.16"

/-- Embedding of the `md5s` map of server.go lines 136-140. A Go map lookup
on a missing key yields the zero value `""`, which is what the default branch
returns. -/
def md5s : Version → String
  | "1.14" => "39055fc71358d774b9da066f80b1141c"
  | "1.15" => "80bd3f00f05326d5190466de27d593dd"
  | "1.16" => "6a549ce6ef6e186e019766059fd82fb2"
  | _ => ""

/-- The download URL built by `fmt.Sprintf` at server.go line 165. -/
def downloadURL (version : Version) : String :=
  "http://search.maven.org/remotecontent?filepath=org/apache/tika/tika-server/"
    ++ version ++ "/tika-server-" ++ version ++ ".jar"

/-- Result of reading the HTTP response body into the destination file
(the `io.Copy(out, resp.Body)` at server.go line 172): either the full body
bytes, or a failure after some bytes were written. -/
inductive BodyRead where
  | ok (data : List Nat)
  | fail (written : List Nat) (msg : String)
  deriving DecidableEq, Repr

/-- An HTTP response as returned by `ctxhttp.Get` with a nil error: a status
code and a body. The Go code never inspects `status`. -/
structure Resp where
  status : Nat
  body : BodyRead
  deriving DecidableEq, Repr

/-- Oracles for the effects `DownloadServer` performs: the MD5 digest, the
filesystem, whether `os.Create` succeeds at a path, the outcome of
`ctxhttp.Get` on a URL (`.error msg` is a transport failure or context
cancellation; `.ok resp` is any response, 2xx or not), and whether
`os.Remove` succeeds at a path. -/
structure DLEnv where
  hash : List Nat → String
  fs : String → FileEntry
  createOk : String → Bool
  get : String → Except String Resp
  removeOk : String → Bool

/-- The distinct error returns of `DownloadServer`, one constructor per
`fmt.Errorf` format string in server.go lines 148-183. -/
inductive DLErr where
  /-- Line 151: "unsupported Tika version: %s". -/
  | unsupportedVersion (version : String)
  /-- Line 161: "error creating file: %v". -/
  | createError
  /-- Line 168: "unable to download %q: %v". -/
  | downloadError (url msg : String)
  /-- Line 173: "error saving download: %v". -/
  | copyError (msg : String)
  /-- Line 180: "invalid md5: %s". -/
  | checksumMismatch (md5 : String)
  /-- Line 178: "invalid md5: %s: error removing %s: %v". -/
  | removeError (md5 path : String)
  deriving DecidableEq, Repr

/-- The observable outcome of one `DownloadServer` call: the returned error
(`none` is a nil error), the filesystem afterwards, and how many network GET
requests were performed. -/
structure DLResult where
  error : Option DLErr
  fs : String → FileEntry
  gets : Nat

/-- Embedding of `DownloadServer(ctx, version, path)`, server.go lines
148-183, branch for branch:
lookup in `md5s` and the `wantH == ""` test; the `os.Stat` + `validateFileMD5`
short-circuit; `os.Create` (which truncates an existing file); `ctxhttp.Get`
on the built URL; `io.Copy` of the body into the file; the final
`validateFileMD5` re-read; and on mismatch `os.Remove` with its own failure
branch. -/
def DownloadServer (env : DLEnv) (version : Version) (path : String) :
    DLResult :=
  let wantH := md5s version
  if wantH = "" then
    ⟨some (.unsupportedVersion version), env.fs, 0⟩
  else if env.fs path ≠ .absent ∧
      (validateFileMD5 env.hash env.fs path wantH).fst = true then
    ⟨none, env.fs, 0⟩
  else if env.createOk path = false then
    ⟨some .createError, env.fs, 0⟩
  else
    let fs1 := setFile env.fs path (.content [])
    let url := downloadURL version
    match env.get url with
    | .error msg => ⟨some (.downloadError url msg), fs1, 1⟩
    | .ok resp =>
      match resp.body with
      | .fail written msg =>
          ⟨some (.copyError msg), setFile fs1 path (.content written), 1⟩
      | .ok data =>
          let fs2 := setFile fs1 path (.content data)
          let r := validateFileMD5 env.hash fs2 path wantH
          if r.fst then ⟨none, fs2, 1⟩
          else if env.removeOk path then
            ⟨some (.checksumMismatch r.snd), setFile fs2 path .absent, 1⟩
          else
            ⟨some (.removeError r.snd path), fs2, 1⟩

/-- Embedding of the `Server` struct of server.go lines 37-41. -/
structure Server where
  jar : String
  url : String
  port : String
  deriving DecidableEq, Repr

/-- Embedding of `(*Server).URL()`, server.go lines 44-46. -/
def Server.URL (s : Server) : String := s.url

/-- Model of the standard-library call `url.Parse("http://localhost:" ++ port)`
followed by `u.String()`, for port strings that contain none of the URL
delimiter bytes `/ ? # @ % [ ] :` (the go-tika code only feeds it such a
template; the theorems below only use it on ports satisfying
`goSimplePort`). Go parses the authority `localhost:<port>` with `parseHost`,
which rejects the string with the error
`parse "<raw>": invalid port ":<port>" after host` unless every byte after
the last colon is an ASCII digit, and for an accepted URL `u.String()`
reproduces the input. -/
def goParseLocalhostURL (port : String) : Except String String :=
  if port.data.all Char.isDigit then
    .ok ("http://localhost:" ++ port)
  else
    .error ("parse \"http://localhost:" ++ port ++ "\": invalid port \":"
      ++ port ++ "\" after host")

/-- Port strings on which `goParseLocalhostURL` is a faithful model of
`url.Parse`: no URL delimiter bytes. -/
def goSimplePort (port : String) : Bool :=
  port.data.all fun c => !(c ∈ ['/', '?', '#', '@', '%', '[', ']', ':'])

/-- Embedding of `NewServer(jar, port)`, server.go lines 49-67: reject an
empty jar, default the port to "9998", compose and parse the localhost URL
(wrapping a parse failure as `invalid port %q: %v`), and store the result. -/
def NewServer (jar port : String) : Except String Server :=
  if jar = "" then .error "no jar file specified"
  else
    let port := if port = "" then "9998" else port
    match goParseLocalhostURL port with
    | .error e => .error ("invalid port \"" ++ port ++ "\": " ++ e)
    | .ok u => .ok { jar := jar, url := u, port := port }

/-- A Go context as `waitForStart` observes it: `doneAt = some n` means the
Done channel is closed before the n-th tick of the 500ms ticker fires (so
`doneAt = some 0` is a context already cancelled or past its deadline at
entry), `doneAt = none` means it is never done; `err` is what `ctx.Err()`
returns once done. -/
structure GoCtx where
  doneAt : Option Nat
  err : String
  deriving DecidableEq, Repr

/-- Whether the context is done before tick `k` fires. -/
def GoCtx.doneBy (c : GoCtx) (k : Nat) : Bool :=
  match c.doneAt with
  | none => false
  | some n => n ≤ k

/-- Loop of `waitForStart`, server.go lines 99-108, at iteration `k` with
`fuel` iterations left. Each iteration is one `select`: if the context is
done before the tick fires, the `ctx.Done()` arm runs and returns `ctx.Err()`;
otherwise the tick arm runs, `c.Version(ctx)` is probed (`probe k = true`
meaning a nil error), returning nil on success and looping otherwise. The
value carried with the outcome counts how many times the probe was invoked;
`none` means the loop was still running when the fuel ran out (the Go loop
has no bound of its own). -/
def waitForStartLoop (c : GoCtx) (probe : Nat → Bool) :
    Nat → Nat → Option (Option String × Nat)
  | 0, _ => none
  | fuel + 1, k =>
    if c.doneBy k then some (some c.err, k)
    else if probe k then some (none, k + 1)
    else waitForStartLoop c probe fuel (k + 1)

/-- Embedding of `(Server).waitForStart(ctx)`, server.go lines 97-109,
starting the loop at iteration 0. -/
def waitForStart (c : GoCtx) (probe : Nat → Bool) (fuel : Nat) :
    Option (Option String × Nat) :=
  waitForStartLoop c probe fuel 0

/-- Observable events of one `Start` call, in the order they happen:
`cmd.Start()` attempted, the derived `cancel` (the teardown) invoked,
`s.waitForStart` invoked, `cmd.CombinedOutput()` attempted. -/
inductive StartEvent where
  | launchAttempted
  | cancelInvoked
  | waitInvoked
  | captureAttempted
  deriving DecidableEq, Repr

/-- Oracles for the effects of `Start` beyond the readiness loop: the outcome
of `cmd.Start()` (`none` is success) and of `cmd.CombinedOutput()` (output
bytes as a string, or a read error). -/
structure StartEnv where
  launch : Option String
  capture : Except String String

/-- The value-error pair `Start` returns: `ok` is `(cancel, nil)`;
`launchErr` the raw `cmd.Start()` error; `captureErr` the
`error reading output: %v` of line 87; `readinessErr` the composite
`error starting server: %v\nserver stderr:\n\n%s` of line 90 carrying the
readiness failure and the captured output; `diverged` marks the fuel of the
readiness loop running out (the Go call never returning). -/
inductive StartOutcome where
  | ok
  | launchErr (msg : String)
  | captureErr (msg : String)
  | readinessErr (msg out : String)
  | diverged
  deriving DecidableEq, Repr

/-- Embedding of `(*Server).Start(ctx)`, server.go lines 74-93, branch for
branch, paired with its event trace: derive a cancellable context (the
returned teardown), attempt the launch; on launch failure invoke cancel and
return the launch error; otherwise run `waitForStart`; on readiness failure
invoke cancel, attempt `cmd.CombinedOutput()`, return the capture error if
that fails and the composite error otherwise; on readiness return the
teardown with a nil error. -/
def Server.Start (env : StartEnv) (c : GoCtx) (probe : Nat → Bool)
    (fuel : Nat) : StartOutcome × List StartEvent :=
  match env.launch with
  | some msg => (.launchErr msg, [.launchAttempted, .cancelInvoked])
  | none =>
    match waitForStart c probe fuel with
    | none => (.diverged, [.launchAttempted, .waitInvoked])
    | some (none, _) => (.ok, [.launchAttempted, .waitInvoked])
    | some (some werr, _) =>
      match env.capture with
      | .error cmsg =>
          (.captureErr ("error reading output: " ++ cmsg),
           [.launchAttempted, .waitInvoked, .cancelInvoked, .captureAttempted])
      | .ok out =>
          (.readinessErr werr out,
           [.launchAttempted, .waitInvoked, .cancelInvoked, .captureAttempted])

/-- A download environment in which the transport fails: empty filesystem,
file creation succeeds, every GET fails with a connection error, and the MD5
oracle returns the digest of the empty input for every content (so the
truncated file never matches a table entry). -/
def dlEnvTransportFail : DLEnv where
  hash := fun _ => "d41d8cd98f00b204e9800998ecf8427e"
  fs := fun _ => .absent
  createOk := fun _ => true
  get := fun _ => .error "connection refused"
  removeOk := fun _ => true

/-- A download environment in which the server answers status 404 with a
small HTML body; the MD5 oracle gives that body a digest matching no table
entry, and removal succeeds. -/
def dlEnvNotFound : DLEnv where
  hash := fun _ => "e134ced312b3511d88943d57ccd70c83"
  fs := fun _ => .absent
  createOk := fun _ => true
  get := fun _ => .ok ⟨404, .ok [60, 104, 116, 109, 108, 62]⟩
  removeOk := fun _ => true

/-- C5: for every readable file (an entry `content d`) and every hash string
`h`, `validateFileMD5` returns `(true, h)` iff the MD5 digest of the content,
hex-encoded (the `hash` oracle), equals `h`; and when the file cannot be
opened or read (`absent` or `unreadable`), it returns `(false, "")` rather
than propagating an error. -/
theorem validateFileMD5_spec (hash : List Nat → String)
    (fs : String → FileEntry) (path h : String) :
    (∀ d, fs path = .content d →
      (validateFileMD5 hash fs path h = (true, h) ↔ hash d = h)) ∧
    ((fs path = .absent ∨ fs path = .unreadable) →
      validateFileMD5 hash fs path h = (false, "")) := by
  constructor
  · intro d hd
    simp only [validateFileMD5, hd, Prod.mk.injEq, beq_iff_eq]
    constructor
    · exact fun hx => hx.1
    · exact fun hx => ⟨hx, hx⟩
  · rintro (hd | hd) <;> simp [validateFileMD5, hd]

/-- Witness for `validateFileMD5_spec` at a concrete readable file and a
concrete unreadable one. -/
theorem validateFileMD5_spec_witness :
    (validateFileMD5 (fun _ => "aa") (fun _ => .content [1]) "p" "aa"
        = (true, "aa")) ∧
    (validateFileMD5 (fun _ => "aa") (fun _ => .absent) "q" "aa"
        = (false, "")) :=
  ⟨((validateFileMD5_spec (fun _ => "aa") (fun _ => .content [1]) "p" "aa").1
      [1] rfl).2 rfl,
   (validateFileMD5_spec (fun _ => "aa") (fun _ => .absent) "q" "aa").2
      (Or.inl rfl)⟩

/-- C8: for every version identifier missing from the `md5s` table (the map
lookup yields `""`), `DownloadServer` returns the unsupported-version error,
leaves the whole filesystem untouched, and performs no network request. -/
theorem downloadServer_unsupported_version (env : DLEnv) (version : Version)
    (path : String) (hv : md5s version = "") :
    DownloadServer env version path
      = ⟨some (.unsupportedVersion version), env.fs, 0⟩ := by
  simp [DownloadServer, hv]

/-- Witness for `downloadServer_unsupported_version` at version "9.99". -/
theorem downloadServer_unsupported_version_witness :
    md5s "9.99" = "" ∧
    DownloadServer
        ⟨fun _ => "", fun _ => .absent, fun _ => true,
         fun _ => .error "net", fun _ => true⟩ "9.99" "p"
      = ⟨some (.unsupportedVersion "9.99"),
         (⟨fun _ => "", fun _ => .absent, fun _ => true,
           fun _ => .error "net", fun _ => true⟩ : DLEnv).fs, 0⟩ :=
  ⟨rfl, downloadServer_unsupported_version _ "9.99" "p" rfl⟩

/-- C9: `NewServer` with an empty jar path fails for every port argument,
and `NewServer "x.jar" ""` succeeds with a handle whose `URL` is exactly
"http://localhost:9998" (the port defaulting to "9998"). -/
theorem newServer_validation_and_default :
    (∀ port, NewServer "" port = .error "no jar file specified") ∧
    ∃ s, NewServer "x.jar" "" = .ok s ∧ s.URL = "http://localhost:9998" := by
  exact ⟨fun port => rfl, ⟨"x.jar", "http://localhost:9998", "9998"⟩, rfl, rfl⟩

/-- C10: there is a non-empty, non-numeric port string (one free of URL
delimiter bytes, so the `url.Parse` model applies) on which `NewServer` with
a non-empty jar fails because the composed URL does not parse: the
invalid-port branch of server.go lines 61-64 is reachable from the public
interface. -/
theorem newServer_invalid_port_reachable :
    ∃ port, port ≠ "" ∧ goSimplePort port = true ∧
      port.data.all Char.isDigit = false ∧
      (∃ e, goParseLocalhostURL port = .error e) ∧
      ∃ msg, NewServer "x.jar" port = .error msg := by
  refine ⟨"abc", by decide, by decide, by decide,
    ⟨"parse \"http://localhost:abc\": invalid port \":abc\" after host", rfl⟩,
    ⟨"invalid port \"abc\": parse \"http://localhost:abc\": invalid port \":abc\" after host",
     rfl⟩⟩

/-- C6: when `waitForStart` is entered with a context that is already done
(cancelled or past its deadline, `doneAt = some 0`), it returns the error of
the context with zero probe invocations, for any probe and any positive
fuel. -/
theorem waitForStart_already_cancelled (c : GoCtx) (probe : Nat → Bool)
    (fuel : Nat) (hdone : c.doneAt = some 0) (hfuel : 0 < fuel) :
    waitForStart c probe fuel = some (some c.err, 0) := by
  obtain ⟨f, rfl⟩ : ∃ f, fuel = f + 1 :=
    ⟨fuel - 1, (Nat.succ_pred_eq_of_pos hfuel).symm⟩
  simp [waitForStart, waitForStartLoop, GoCtx.doneBy, hdone]

/-- Witness for `waitForStart_already_cancelled` with a context cancelled at
entry and a probe that would succeed immediately if it were ever invoked. -/
theorem waitForStart_already_cancelled_witness :
    waitForStart ⟨some 0, "context canceled"⟩ (fun _ => true) 1
      = some (some "context canceled", 0) :=
  waitForStart_already_cancelled ⟨some 0, "context canceled"⟩ (fun _ => true)
    1 rfl (by decide)

/-- C7: when `cmd.Start()` fails, `Start` invokes the derived cancel
(teardown) immediately, returns the launch error, and never invokes the
readiness wait. -/
theorem start_launch_failure (env : StartEnv) (c : GoCtx)
    (probe : Nat → Bool) (fuel : Nat) (msg : String)
    (hl : env.launch = some msg) :
    Server.Start env c probe fuel
        = (.launchErr msg, [.launchAttempted, .cancelInvoked]) ∧
    StartEvent.waitInvoked ∉ (Server.Start env c probe fuel).2 := by
  refine ⟨by simp [Server.Start, hl], ?_⟩
  simp [Server.Start, hl]

/-- Witness for `start_launch_failure` at a concrete launch error. -/
theorem start_launch_failure_witness :
    Server.Start ⟨some "exec: not found", .ok ""⟩ ⟨none, ""⟩ (fun _ => true) 1
        = (.launchErr "exec: not found", [.launchAttempted, .cancelInvoked]) ∧
    StartEvent.waitInvoked ∉
      (Server.Start ⟨some "exec: not found", .ok ""⟩ ⟨none, ""⟩
        (fun _ => true) 1).2 :=
  start_launch_failure ⟨some "exec: not found", .ok ""⟩ ⟨none, ""⟩
    (fun _ => true) 1 "exec: not found" rfl

/-- C3: when the launch succeeds but the readiness wait fails, `Start`
invokes the derived cancel (teardown) and then attempts the combined
stdout+stderr capture — the event trace shows cancel before capture — and
returns the capture error (formatted `error reading output: ...`) if the
capture fails, and otherwise the composite error carrying both the readiness
failure and the captured output. -/
theorem start_readiness_failure_capture (env : StartEnv) (c : GoCtx)
    (probe : Nat → Bool) (fuel k : Nat) (werr : String)
    (hl : env.launch = none)
    (hw : waitForStart c probe fuel = some (some werr, k)) :
    (Server.Start env c probe fuel).2
        = [.launchAttempted, .waitInvoked, .cancelInvoked,
           .captureAttempted] ∧
    (Server.Start env c probe fuel).1
        = (match env.capture with
           | .error cmsg => .captureErr ("error reading output: " ++ cmsg)
           | .ok out => .readinessErr werr out) := by
  cases hcap : env.capture <;>
    simp [Server.Start, hl, hw, hcap]

/-- Witness for `start_readiness_failure_capture`: launch succeeds, the
context times out at entry so the wait fails, and the capture succeeds, so
the composite error carries both parts. -/
theorem start_readiness_failure_capture_witness :
    (Server.Start ⟨none, .ok "port in use"⟩
        ⟨some 0, "context deadline exceeded"⟩ (fun _ => false) 1).2
        = [.launchAttempted, .waitInvoked, .cancelInvoked,
           .captureAttempted] ∧
    (Server.Start ⟨none, .ok "port in use"⟩
        ⟨some 0, "context deadline exceeded"⟩ (fun _ => false) 1).1
        = .readinessErr "context deadline exceeded" "port in use" :=
  start_readiness_failure_capture ⟨none, .ok "port in use"⟩
    ⟨some 0, "context deadline exceeded"⟩ (fun _ => false) 1 0
    "context deadline exceeded" rfl rfl

/-- C4: starting from no file at the destination, a successful
`DownloadServer` call performs exactly one network GET, and an immediately
repeated call with the resulting filesystem succeeds with zero GETs and
returns the filesystem unchanged (the short-circuit on the now-valid
checksum), so the two calls together perform exactly one network transfer
and the second does not modify the file. -/
theorem downloadServer_idempotent (env : DLEnv) (version : Version)
    (path : String) (hv : md5s version ≠ "")
    (habs : env.fs path = .absent)
    (hok : (DownloadServer env version path).error = none) :
    (DownloadServer env version path).gets = 1 ∧
    DownloadServer { env with fs := (DownloadServer env version path).fs }
        version path
      = ⟨none, (DownloadServer env version path).fs, 0⟩ := by
  cases hc : env.createOk path with
  | false => simp [DownloadServer, hv, habs, hc] at hok
  | true =>
    cases hg : env.get (downloadURL version) with
    | error msg => simp [DownloadServer, hv, habs, hc, hg] at hok
    | ok resp =>
      cases hb : resp.body with
      | fail written msg => simp [DownloadServer, hv, habs, hc, hg, hb] at hok
      | ok data =>
        cases hr : (validateFileMD5 env.hash
            (setFile (setFile env.fs path (.content [])) path (.content data))
            path (md5s version)).fst with
        | false =>
          cases hrem : env.removeOk path with
          | false => simp [DownloadServer, hv, habs, hc, hg, hb, hr, hrem] at hok
          | true => simp [DownloadServer, hv, habs, hc, hg, hb, hr, hrem] at hok
        | true =>
          have hfirst : DownloadServer env version path
              = ⟨none, setFile (setFile env.fs path (.content [])) path
                  (.content data), 1⟩ := by
            simp [DownloadServer, hv, habs, hc, hg, hb, hr]
          rw [hfirst]
          refine ⟨rfl, ?_⟩
          have hpath : setFile (setFile env.fs path (.content [])) path
              (.content data) path = .content data := by
            simp [setFile]
          simp [DownloadServer, hv, hpath, hr]

/-- C1 as stated fails on the code: with a transport failure after the
destination was created and truncated, `DownloadServer` returns a non-nil
error yet a file whose checksum differs from the expected hash for version
"1.14" remains at the destination — the truncated empty file is not
deleted. -/
theorem downloadError_leaves_wrong_checksum_file :
    (DownloadServer dlEnvTransportFail "1.14" "p").error ≠ none ∧
    (DownloadServer dlEnvTransportFail "1.14" "p").fs "p" = .content [] ∧
    dlEnvTransportFail.hash [] ≠ md5s "1.14" := by
  refine ⟨?_, ?_, ?_⟩ <;> decide

/-- C1 amended: when `DownloadServer` returns the checksum-mismatch error
(the final validation failed and the removal succeeded), no file remains at
the destination path; on the earlier failure paths (creation, transport,
copy) and on a failed removal a file may remain. -/
theorem checksumMismatch_deletes_destination (env : DLEnv)
    (version : Version) (path m : String)
    (h : (DownloadServer env version path).error
        = some (.checksumMismatch m)) :
    (DownloadServer env version path).fs path = .absent := by
  by_cases hv : md5s version = ""
  · simp [DownloadServer, hv] at h
  by_cases hsc : env.fs path ≠ .absent ∧
      (validateFileMD5 env.hash env.fs path (md5s version)).fst = true
  · simp [DownloadServer, hv, hsc] at h
  cases hc : env.createOk path with
  | false => simp [DownloadServer, hv, hsc, hc] at h
  | true =>
    cases hg : env.get (downloadURL version) with
    | error msg => simp [DownloadServer, hv, hsc, hc, hg] at h
    | ok resp =>
      cases hb : resp.body with
      | fail written msg =>
          simp [DownloadServer, hv, hsc, hc, hg, hb] at h
      | ok data =>
        cases hr : (validateFileMD5 env.hash
            (setFile (setFile env.fs path (.content [])) path
              (.content data)) path (md5s version)).fst with
        | true => simp [DownloadServer, hv, hsc, hc, hg, hb, hr] at h
        | false =>
          cases hrem : env.removeOk path with
          | false =>
              simp [DownloadServer, hv, hsc, hc, hg, hb, hr, hrem] at h
          | true =>
              simp [DownloadServer, hv, hsc, hc, hg, hb, hr, hrem, setFile]

/-- Witness for `checksumMismatch_deletes_destination`: a 404 body with a
wrong digest is downloaded, the mismatch is detected and the file removed. -/
theorem checksumMismatch_deletes_destination_witness :
    (DownloadServer dlEnvNotFound "1.14" "p").error
        = some (.checksumMismatch "e134ced312b3511d88943d57ccd70c83") ∧
    (DownloadServer dlEnvNotFound "1.14" "p").fs "p" = .absent :=
  ⟨by decide,
   checksumMismatch_deletes_destination dlEnvNotFound "1.14" "p"
     "e134ced312b3511d88943d57ccd70c83" (by decide)⟩

/-- C2 as stated fails on the code: `DownloadServer` never inspects the HTTP
status code. With a 404 response whose body hashes wrong, the returned error
is the checksum-mismatch error, not a download error wrapping the non-2xx
status, and the destination file has been deleted rather than left as-is. -/
theorem non2xx_not_downloadError :
    dlEnvNotFound.get (downloadURL "1.14")
        = .ok ⟨404, .ok [60, 104, 116, 109, 108, 62]⟩ ∧
    ¬(200 ≤ 404 ∧ 404 ≤ 299) ∧
    (DownloadServer dlEnvNotFound "1.14" "p").error
        = some (.checksumMismatch "e134ced312b3511d88943d57ccd70c83") ∧
    (DownloadServer dlEnvNotFound "1.14" "p").fs "p" = .absent := by
  refine ⟨rfl, by decide, ?_, ?_⟩ <;> decide

/-- C2 amended: for every transport failure of the GET, with the download
path reached (supported version, no pre-existing file, creation succeeded),
`DownloadServer` returns the download error naming the URL and wrapping the
underlying cause, and the destination holds the just-created truncated file,
which is not deleted. -/
theorem transport_failure_downloadError (env : DLEnv) (version : Version)
    (path msg : String) (hv : md5s version ≠ "")
    (habs : env.fs path = .absent) (hc : env.createOk path = true)
    (hg : env.get (downloadURL version) = .error msg) :
    DownloadServer env version path
      = ⟨some (.downloadError (downloadURL version) msg),
         setFile env.fs path (.content []), 1⟩ := by
  simp [DownloadServer, hv, habs, hc, hg]

/-- Witness for `transport_failure_downloadError` at a concrete connection
failure. -/
theorem transport_failure_downloadError_witness :
    DownloadServer dlEnvTransportFail "1.14" "p"
      = ⟨some (.downloadError (downloadURL "1.14") "connection refused"),
         setFile dlEnvTransportFail.fs "p" (.content []), 1⟩ :=
  transport_failure_downloadError dlEnvTransportFail "1.14" "p"
    "connection refused" (by decide) rfl rfl rfl

/-- Witness for `downloadServer_idempotent`: a successful download of a body
whose digest matches the table entry for "1.14", repeated. -/
theorem downloadServer_idempotent_witness :
    (DownloadServer
        ⟨fun _ => "39055fc71358d774b9da066f80b1141c", fun _ => .absent,
         fun _ => true, fun _ => .ok ⟨200, .ok [7, 7]⟩, fun _ => true⟩
        "1.14" "p").gets = 1 ∧
    DownloadServer
        { (⟨fun _ => "39055fc71358d774b9da066f80b1141c", fun _ => .absent,
            fun _ => true, fun _ => .ok ⟨200, .ok [7, 7]⟩,
            fun _ => true⟩ : DLEnv) with
          fs := (DownloadServer
            ⟨fun _ => "39055fc71358d774b9da066f80b1141c", fun _ => .absent,
             fun _ => true, fun _ => .ok ⟨200, .ok [7, 7]⟩, fun _ => true⟩
            "1.14" "p").fs }
        "1.14" "p"
      = ⟨none,
         (DownloadServer
            ⟨fun _ => "39055fc71358d774b9da066f80b1141c", fun _ => .absent,
             fun _ => true, fun _ => .ok ⟨200, .ok [7, 7]⟩, fun _ => true⟩
            "1.14" "p").fs, 0⟩ :=
  downloadServer_idempotent
    ⟨fun _ => "39055fc71358d774b9da066f80b1141c", fun _ => .absent,
     fun _ => true, fun _ => .ok ⟨200, .ok [7, 7]⟩, fun _ => true⟩
    "1.14" "p" (by decide) rfl (by decide)
